import Mathlib

/-!
policr-mini front-end: Title components and the Statistics page

A shallow embedding of

* `assets/src/admin/components/Title.js`
* `assets/src/user/components/Title.js`
* `assets/src/admin/pages/Statistics.js`

Each component is a JavaScript function from props to a React element.  The
embedding keeps the JavaScript evaluation steps the three bodies perform:
property reads (which throw on `undefined` and `null`), the `||` operator,
the conditional operator with its truthiness test, and the string conversion
done by a template literal.  The two ambient inputs, the global `_GLOBAL`
binding and the redux store state, travel in an explicit environment that
every render receives and hands back.
-/

namespace PolicrMini

/-! JavaScript values -/

/-- The JavaScript values the components are fed with: `undefined`, `null`,
booleans, strings and plain objects (own enumerable fields, first binding of a
key wins).  Numbers, symbols, functions and arrays are outside this fragment. -/
inductive JSValue where
  | undefined
  | null
  | bool (b : Bool)
  | str (s : String)
  | obj (fields : List (String × JSValue))

/-- Errors a render can throw. -/
inductive JSError where
  | typeError
  | referenceError
  deriving DecidableEq, Repr

/-- ECMAScript `ToBoolean` on the fragment: `undefined`, `null`, `false` and the
empty string are falsy, everything else is truthy. -/
def toBoolean : JSValue → Bool
  | .undefined => false
  | .null => false
  | .bool b => b
  | .str s => s != ""
  | .obj _ => true

/-- ECMAScript `ToString` on the fragment, as applied to each substitution of a
template literal.  A plain object converts through `Object.prototype.toString`. -/
def toString : JSValue → String
  | .undefined => "undefined"
  | .null => "null"
  | .bool true => "true"
  | .bool false => "false"
  | .str s => s
  | .obj _ => "[object Object]"

/-- Property read `v.key` (also the read done by an object destructuring
pattern on `v`), for keys that no primitive wrapper prototype defines, which
is the case of every key the three components read (`chats`, `isLoaded`,
`botName`, `botFirstName`).  Reading from `undefined` or `null` throws a
`TypeError`; a key an object does not have reads as `undefined`. -/
def getProp (v : JSValue) (key : String) : Except JSError JSValue :=
  match v with
  | .undefined => .error .typeError
  | .null => .error .typeError
  | .bool _ => .ok .undefined
  | .str _ => .ok .undefined
  | .obj fields => .ok ((fields.lookup key).getD .undefined)

/-! React elements -/

/-- Element types occurring in the JSX of the three files. -/
inductive ElementType where
  | Fragment
  | Helmet
  | title
  | PageHeader
  | PageLoading
  | NotImplemented
  deriving DecidableEq, Repr

/-- A React node: a text child or an element with a type, string props and
children, as built by `React.createElement`. -/
inductive Element where
  | text (s : String)
  | node (type : ElementType) (props : List (String × String)) (children : List Element)

mutual
/-- Number of elements of type `t` in a node, the node itself included. -/
def Element.count (t : ElementType) : Element → Nat
  | .text _ => 0
  | .node ty _ cs => (if ty = t then 1 else 0) + Element.countList t cs
/-- Number of elements of type `t` in a list of nodes. -/
def Element.countList (t : ElementType) : List Element → Nat
  | [] => 0
  | c :: cs => Element.count t c + Element.countList t cs
end

/-- The text a Helmet element declares as document title: the single text child
of the single `title` child of `Helmet`. -/
def titleText : Element → Option String
  | .node .Helmet _ [.node .title _ [.text s]] => some s
  | _ => none

/-! Ambient inputs and rendering -/

/-- What a render can read besides its props: the global binding `_GLOBAL`
(`none` when no such binding is declared) and the redux store state. -/
structure Env where
  _GLOBAL : Option JSValue
  state : JSValue

/-- A render step: receives the environment, returns a value or a thrown error
together with the environment it leaves behind. -/
abbrev Render (α : Type) := Env → Except JSError α × Env

/-- Evaluation of the identifier `_GLOBAL`: a `ReferenceError` when unbound. -/
def readGlobal : Render JSValue := fun env =>
  match env._GLOBAL with
  | none => (.error .referenceError, env)
  | some g => (.ok g, env)

/-- The react-redux hook `useSelector(selector)`: applies the selector to the
current store state. -/
def useSelector (selector : JSValue → Except JSError JSValue) : Render JSValue :=
  fun env => (selector env.state, env)

/-! The components -/

/-- `admin/components/Title.js`: the default export, applied to the `children`
prop. -/
def TitleAdmin (children : JSValue) : Render Element := fun env =>
  (.ok (.node .Helmet [] [.node .title [] [.text (toString children ++ " - Mini Admin")]]), env)

/-- The expression `_GLOBAL.botName || _GLOBAL.botFirstName`: the right operand
is evaluated only when the left one is falsy. -/
def botDisplayName : Render JSValue := fun env =>
  match readGlobal env with
  | (.error e, env1) => (.error e, env1)
  | (.ok g, env1) =>
    match getProp g "botName" with
    | .error e => (.error e, env1)
    | .ok botName =>
      if toBoolean botName then (.ok botName, env1)
      else
        match readGlobal env1 with
        | (.error e, env2) => (.error e, env2)
        | (.ok g2, env2) =>
          match getProp g2 "botFirstName" with
          | .error e => (.error e, env2)
          | .ok botFirstName => (.ok botFirstName, env2)

/-- `user/components/Title.js`: the default export, applied to the `children`
prop. -/
def TitleUser (children : JSValue) : Render Element := fun env =>
  match botDisplayName env with
  | (.error e, env1) => (.error e, env1)
  | (.ok name, env1) =>
    (.ok (.node .Helmet [] [.node .title []
      [.text (toString children ++ " - " ++ toString name)]]), env1)

/-- `admin/pages/Statistics.js`: the default export. -/
def StatisticsPage : Render Element := fun env =>
  match useSelector (fun state => getProp state "chats") env with
  | (.error e, env1) => (.error e, env1)
  | (.ok chats, env1) =>
    match getProp chats "isLoaded" with
    | .error e => (.error e, env1)
    | .ok isLoaded =>
      (.ok (.node .Fragment []
        [ .node .PageHeader [("title", "数据统计")] [],
          if toBoolean isLoaded then .node .NotImplemented [] [] else .node .PageLoading [] [] ]),
       env1)

/-- The document title a render declares: the title text of the returned Helmet
element, `none` when the render threw or returned something else. -/
def renderedTitle (r : Except JSError Element × Env) : Option String :=
  match r.1 with
  | .ok e => titleText e
  | .error _ => none

/-! Evaluation lemmas -/

theorem botDisplayName_of_truthy (env : Env) (g n : JSValue)
    (hg : env._GLOBAL = some g) (hn : getProp g "botName" = .ok n)
    (ht : toBoolean n = true) :
    botDisplayName env = (.ok n, env) := by
  simp [botDisplayName, readGlobal, hg, hn, ht]

theorem botDisplayName_of_falsy (env : Env) (g n f : JSValue)
    (hg : env._GLOBAL = some g) (hn : getProp g "botName" = .ok n)
    (hf : getProp g "botFirstName" = .ok f) (ht : toBoolean n = false) :
    botDisplayName env = (.ok f, env) := by
  simp [botDisplayName, readGlobal, hg, hn, hf, ht]

theorem TitleUser_of_name (children name : JSValue) (env : Env)
    (h : botDisplayName env = (.ok name, env)) :
    TitleUser children env =
      (.ok (.node .Helmet [] [.node .title []
        [.text (toString children ++ " - " ++ toString name)]]), env) := by
  simp [TitleUser, h]

theorem botDisplayName_env (env : Env) : (botDisplayName env).2 = env := by
  cases hg : env._GLOBAL with
  | none => simp [botDisplayName, readGlobal, hg]
  | some g =>
    cases hn : getProp g "botName" with
    | error e => simp [botDisplayName, readGlobal, hg, hn]
    | ok n =>
      cases ht : toBoolean n with
      | true => simp [botDisplayName, readGlobal, hg, hn, ht]
      | false =>
        cases hf : getProp g "botFirstName" <;>
          simp [botDisplayName, readGlobal, hg, hn, ht, hf]

theorem TitleUser_env (children : JSValue) (env : Env) :
    (TitleUser children env).2 = env := by
  have h := botDisplayName_env env
  unfold TitleUser
  rcases hb : botDisplayName env with ⟨r, env1⟩
  rw [hb] at h
  cases r <;> exact h

theorem StatisticsPage_env (env : Env) : (StatisticsPage env).2 = env := by
  cases hc : getProp env.state "chats" with
  | error e => simp [StatisticsPage, useSelector, hc]
  | ok chats =>
    cases hl : getProp chats "isLoaded" <;>
      simp [StatisticsPage, useSelector, hc, hl]

theorem StatisticsPage_of_flag (env : Env) (chats isLoaded : JSValue)
    (hc : getProp env.state "chats" = .ok chats)
    (hl : getProp chats "isLoaded" = .ok isLoaded) :
    StatisticsPage env =
      (.ok (.node .Fragment []
        [ .node .PageHeader [("title", "数据统计")] [],
          if toBoolean isLoaded then .node .NotImplemented [] [] else .node .PageLoading [] [] ]),
       env) := by
  simp [StatisticsPage, useSelector, hc, hl]

theorem botDisplayName_fst_congr (env env2 : Env) (h : env2._GLOBAL = env._GLOBAL) :
    (botDisplayName env2).1 = (botDisplayName env).1 := by
  cases hg : env._GLOBAL with
  | none => simp [botDisplayName, readGlobal, hg, h.trans hg]
  | some g =>
    have hg2 := h.trans hg
    cases hn : getProp g "botName" with
    | error e => simp [botDisplayName, readGlobal, hg, hg2, hn]
    | ok n =>
      cases ht : toBoolean n with
      | true => simp [botDisplayName, readGlobal, hg, hg2, hn, ht]
      | false =>
        cases hf : getProp g "botFirstName" <;>
          simp [botDisplayName, readGlobal, hg, hg2, hn, ht, hf]

theorem TitleUser_fst (children : JSValue) (env : Env) :
    (TitleUser children env).1 =
      match (botDisplayName env).1 with
      | .error e => .error e
      | .ok name => .ok (.node .Helmet [] [.node .title []
          [.text (toString children ++ " - " ++ toString name)]]) := by
  unfold TitleUser
  rcases botDisplayName env with ⟨r, env1⟩
  cases r <;> rfl

theorem StatisticsPage_fst_congr (env env2 : Env) (h : env2.state = env.state) :
    (StatisticsPage env2).1 = (StatisticsPage env).1 := by
  cases hc : getProp env.state "chats" with
  | error e => simp [StatisticsPage, useSelector, h, hc]
  | ok chats =>
    cases hl : getProp chats "isLoaded" <;>
      simp [StatisticsPage, useSelector, h, hc, hl]

theorem StatisticsPage_of_chats_error (env : Env) (chats : JSValue)
    (hc : getProp env.state "chats" = .ok chats)
    (hl : getProp chats "isLoaded" = .error .typeError) :
    StatisticsPage env = (.error .typeError, env) := by
  simp [StatisticsPage, useSelector, hc, hl]

theorem toBoolean_str (s : String) : toBoolean (.str s) = !(s == "") := by
  simp [toBoolean, bne]

/-! The user Title component -/

/-- C1: for every label string `L` and every global configuration whose `botName`
and `botFirstName` are strings, the user Title renders without error and its
title is `L ++ " - " ++ botName` when `botName` is non-empty and
`L ++ " - " ++ botFirstName` when `botName` is the empty string. -/
theorem C1_TitleUser_title (env : Env) (g : JSValue) (L botName botFirstName : String)
    (hg : env._GLOBAL = some g)
    (hn : getProp g "botName" = .ok (.str botName))
    (hf : getProp g "botFirstName" = .ok (.str botFirstName)) :
    (botName ≠ "" →
      renderedTitle (TitleUser (.str L) env) = some (L ++ " - " ++ botName)) ∧
    (botName = "" →
      renderedTitle (TitleUser (.str L) env) = some (L ++ " - " ++ botFirstName)) := by
  constructor
  · intro hne
    have ht : toBoolean (.str botName) = true := by simp [toBoolean_str, hne]
    rw [TitleUser_of_name _ _ _ (botDisplayName_of_truthy env g _ hg hn ht)]
    rfl
  · intro he
    have ht : toBoolean (.str botName) = false := by simp [toBoolean_str, he]
    rw [TitleUser_of_name _ _ _ (botDisplayName_of_falsy env g _ _ hg hn hf ht)]
    rfl

/-- C1, the two examples of the specification: with `botName = ""` and
`botFirstName = "Botty"` the label `"Home"` gives `"Home - Botty"`; with
`botName = "MainBot"` it gives `"Home - MainBot"`. -/
theorem C1_TitleUser_title_witness :
    renderedTitle (TitleUser (.str "Home")
      ⟨some (.obj [("botName", .str ""), ("botFirstName", .str "Botty")]), .obj []⟩)
      = some "Home - Botty" ∧
    renderedTitle (TitleUser (.str "Home")
      ⟨some (.obj [("botName", .str "MainBot"), ("botFirstName", .str "Botty")]), .obj []⟩)
      = some "Home - MainBot" :=
  ⟨(C1_TitleUser_title
      ⟨some (.obj [("botName", .str ""), ("botFirstName", .str "Botty")]), .obj []⟩
      (.obj [("botName", .str ""), ("botFirstName", .str "Botty")])
      "Home" "" "Botty" rfl rfl rfl).2 rfl,
   (C1_TitleUser_title
      ⟨some (.obj [("botName", .str "MainBot"), ("botFirstName", .str "Botty")]), .obj []⟩
      (.obj [("botName", .str "MainBot"), ("botFirstName", .str "Botty")])
      "Home" "MainBot" "Botty" rfl rfl rfl).1 (by decide)⟩

/-! The admin Title component -/

/-- C2: for every label string `L` the admin Title renders without error, leaves
the environment alone, and its title is exactly `L ++ " - Mini Admin"`. -/
theorem C2_TitleAdmin_title (env : Env) (L : String) :
    TitleAdmin (.str L) env =
      (.ok (.node .Helmet [] [.node .title [] [.text (L ++ " - Mini Admin")]]), env) ∧
    renderedTitle (TitleAdmin (.str L) env) = some (L ++ " - Mini Admin") :=
  ⟨rfl, rfl⟩

/-! The Statistics page -/

/-- C3: for every store state in which `chats.isLoaded` is `false`, the page
renders without error to the fragment made of the PageHeader titled
"数据统计" followed by PageLoading, and NotImplemented occurs nowhere in it. -/
theorem C3_StatisticsPage_not_loaded (env : Env) (chats : JSValue)
    (hc : getProp env.state "chats" = .ok chats)
    (hl : getProp chats "isLoaded" = .ok (.bool false)) :
    ∃ out, (StatisticsPage env).1 = .ok out ∧
      out = .node .Fragment []
        [.node .PageHeader [("title", "数据统计")] [], .node .PageLoading [] []] ∧
      Element.count .NotImplemented out = 0 := by
  refine ⟨_, ?_, rfl, by decide⟩
  rw [StatisticsPage_of_flag env chats _ hc hl]
  rfl

/-- Witness of C3 on the store state whose `chats` slice is the object with
the single field `isLoaded` set to `false`. -/
theorem C3_StatisticsPage_not_loaded_witness :
    ∃ out, (StatisticsPage ⟨none, .obj [("chats", .obj [("isLoaded", .bool false)])]⟩).1
        = .ok out ∧
      out = .node .Fragment []
        [.node .PageHeader [("title", "数据统计")] [], .node .PageLoading [] []] ∧
      Element.count .NotImplemented out = 0 :=
  C3_StatisticsPage_not_loaded
    ⟨none, .obj [("chats", .obj [("isLoaded", .bool false)])]⟩
    (.obj [("isLoaded", .bool false)]) rfl rfl

/-- C4: for every store state in which `chats.isLoaded` is `true`, the page
renders without error to the fragment made of the PageHeader titled
"数据统计" followed by NotImplemented, and PageLoading occurs nowhere in it. -/
theorem C4_StatisticsPage_loaded (env : Env) (chats : JSValue)
    (hc : getProp env.state "chats" = .ok chats)
    (hl : getProp chats "isLoaded" = .ok (.bool true)) :
    ∃ out, (StatisticsPage env).1 = .ok out ∧
      out = .node .Fragment []
        [.node .PageHeader [("title", "数据统计")] [], .node .NotImplemented [] []] ∧
      Element.count .PageLoading out = 0 := by
  refine ⟨_, ?_, rfl, by decide⟩
  rw [StatisticsPage_of_flag env chats _ hc hl]
  rfl

/-- Witness of C4 on the store state whose `chats` slice is the object with
the single field `isLoaded` set to `true`. -/
theorem C4_StatisticsPage_loaded_witness :
    ∃ out, (StatisticsPage ⟨none, .obj [("chats", .obj [("isLoaded", .bool true)])]⟩).1
        = .ok out ∧
      out = .node .Fragment []
        [.node .PageHeader [("title", "数据统计")] [], .node .NotImplemented [] []] ∧
      Element.count .PageLoading out = 0 :=
  C4_StatisticsPage_loaded
    ⟨none, .obj [("chats", .obj [("isLoaded", .bool true)])]⟩
    (.obj [("isLoaded", .bool true)]) rfl rfl

/-- C7: for every store state whose `chats` slice is an object without an
`isLoaded` field, the page renders without error to the PageHeader followed by
PageLoading, which is also what it renders for any store state whose
`chats.isLoaded` is `false`. -/
theorem C7_StatisticsPage_flag_absent (env : Env) (fields : List (String × JSValue))
    (hc : getProp env.state "chats" = .ok (.obj fields))
    (hno : fields.lookup "isLoaded" = none) :
    (StatisticsPage env).1 = .ok (.node .Fragment []
        [.node .PageHeader [("title", "数据统计")] [], .node .PageLoading [] []]) ∧
    ∀ (env2 : Env) (chats2 : JSValue),
      getProp env2.state "chats" = .ok chats2 →
      getProp chats2 "isLoaded" = .ok (.bool false) →
      (StatisticsPage env).1 = (StatisticsPage env2).1 := by
  have hl : getProp (.obj fields) "isLoaded" = .ok .undefined := by
    simp [getProp, hno]
  have h1 : (StatisticsPage env).1 = .ok (.node .Fragment []
      [.node .PageHeader [("title", "数据统计")] [], .node .PageLoading [] []]) := by
    rw [StatisticsPage_of_flag env _ _ hc hl]
    rfl
  refine ⟨h1, ?_⟩
  intro env2 chats2 hc2 hl2
  rw [h1, StatisticsPage_of_flag env2 chats2 _ hc2 hl2]
  rfl

/-- Witness of C7 on the store state whose `chats` slice is the object with
the single field `list`, compared with the state whose flag is `false`. -/
theorem C7_StatisticsPage_flag_absent_witness :
    (StatisticsPage ⟨none, .obj [("chats", .obj [("list", .null)])]⟩).1
      = .ok (.node .Fragment []
        [.node .PageHeader [("title", "数据统计")] [], .node .PageLoading [] []]) ∧
    (StatisticsPage ⟨none, .obj [("chats", .obj [("list", .null)])]⟩).1
      = (StatisticsPage ⟨none, .obj [("chats", .obj [("isLoaded", .bool false)])]⟩).1 :=
  have h := C7_StatisticsPage_flag_absent
    ⟨none, .obj [("chats", .obj [("list", .null)])]⟩ [("list", .null)] rfl rfl
  ⟨h.1, h.2 ⟨none, .obj [("chats", .obj [("isLoaded", .bool false)])]⟩
    (.obj [("isLoaded", .bool false)]) rfl rfl⟩

/-- C9: rendering the Statistics page only reads the store: whatever the
environment, and whether the render returns or throws, the environment after
the render (store state included) is the one before it. -/
theorem C9_StatisticsPage_reads_only (env : Env) :
    (StatisticsPage env).2 = env ∧ (StatisticsPage env).2.state = env.state := by
  rw [StatisticsPage_env]
  exact ⟨rfl, rfl⟩

/-- C10: for every store state whose `chats` slice reads as `undefined` or
`null`, rendering the Statistics page throws a `TypeError` at the read of
`isLoaded` and returns no view tree. -/
theorem C10_StatisticsPage_chats_absent (env : Env) (chats : JSValue)
    (hc : getProp env.state "chats" = .ok chats)
    (habs : chats = .undefined ∨ chats = .null) :
    (StatisticsPage env).1 = .error .typeError ∧
    ∀ out, (StatisticsPage env).1 ≠ .ok out := by
  have hl : getProp chats "isLoaded" = .error .typeError := by
    rcases habs with h | h <;> subst h <;> rfl
  have h1 := StatisticsPage_of_chats_error env chats hc hl
  rw [h1]
  exact ⟨rfl, fun out h => by cases h⟩

/-- Witness of C10 on a store state without a `chats` key and on one whose
`chats` is `null`. -/
theorem C10_StatisticsPage_chats_absent_witness :
    (StatisticsPage ⟨none, .obj []⟩).1 = .error .typeError ∧
    (StatisticsPage ⟨none, .obj [("chats", .null)]⟩).1 = .error .typeError :=
  ⟨(C10_StatisticsPage_chats_absent ⟨none, .obj []⟩ .undefined rfl (Or.inl rfl)).1,
   (C10_StatisticsPage_chats_absent ⟨none, .obj [("chats", .null)]⟩ .null rfl
      (Or.inr rfl)).1⟩

/-! Absent inputs of the Title components -/

/-- C5, as the claim states it, fails: with the `children` prop `undefined` the
admin Title does not produce the title `" - Mini Admin"`. -/
theorem C5_TitleAdmin_absent_label_counterexample :
    renderedTitle (TitleAdmin .undefined ⟨none, .obj []⟩) ≠ some " - Mini Admin" := by
  decide

/-- C5, amended: with the `children` prop `undefined` the admin Title renders
without error and its title is exactly `"undefined - Mini Admin"`. -/
theorem C5_TitleAdmin_absent_label (env : Env) :
    TitleAdmin .undefined env =
      (.ok (.node .Helmet [] [.node .title [] [.text "undefined - Mini Admin"]]), env) ∧
    renderedTitle (TitleAdmin .undefined env) = some "undefined - Mini Admin" :=
  ⟨rfl, rfl⟩

/-- C6, as the claim states it, fails: with a global configuration that has
neither `botName` nor `botFirstName`, the user Title of the label `"Home"` is
not `"Home - "`. -/
theorem C6_TitleUser_absent_names_counterexample :
    renderedTitle (TitleUser (.str "Home") ⟨some (.obj []), .obj []⟩) ≠ some "Home - " := by
  decide

/-- C6, amended: for every label string `L`, when `botName` and `botFirstName`
of the global configuration both read as `undefined`, the user Title renders
without error and its title is exactly `L ++ " - undefined"`. -/
theorem C6_TitleUser_absent_names (env : Env) (g : JSValue) (L : String)
    (hg : env._GLOBAL = some g)
    (hn : getProp g "botName" = .ok .undefined)
    (hf : getProp g "botFirstName" = .ok .undefined) :
    renderedTitle (TitleUser (.str L) env) = some (L ++ " - undefined") := by
  rw [TitleUser_of_name _ _ _ (botDisplayName_of_falsy env g _ _ hg hn hf rfl)]
  show some (L ++ " - " ++ "undefined") = some (L ++ " - undefined")
  rw [String.append_assoc]
  rfl

/-- Witness of the amended C6 on the empty global configuration object. -/
theorem C6_TitleUser_absent_names_witness :
    renderedTitle (TitleUser (.str "Home") ⟨some (.obj []), .obj []⟩)
      = some "Home - undefined" :=
  C6_TitleUser_absent_names ⟨some (.obj []), .obj []⟩ (.obj []) "Home" rfl rfl rfl

/-! Determinism -/

/-- C8: no component keeps hidden state.  A second render, started from the
environment the first one left, returns the same result and leaves the same
environment; and the result depends only on the declared inputs: the admin
Title on its label, the user Title on its label and the global configuration,
the Statistics page on the store state. -/
theorem C8_render_deterministic (children : JSValue) (env env2 : Env) :
    (TitleAdmin children (TitleAdmin children env).2 = TitleAdmin children env ∧
     TitleUser children (TitleUser children env).2 = TitleUser children env ∧
     StatisticsPage (StatisticsPage env).2 = StatisticsPage env) ∧
    ((TitleAdmin children env2).1 = (TitleAdmin children env).1 ∧
     (env2._GLOBAL = env._GLOBAL →
        (TitleUser children env2).1 = (TitleUser children env).1) ∧
     (env2.state = env.state → (StatisticsPage env2).1 = (StatisticsPage env).1)) := by
  refine ⟨⟨rfl, ?_, ?_⟩, rfl, ?_, ?_⟩
  · rw [TitleUser_env]
  · rw [StatisticsPage_env]
  · intro h
    rw [TitleUser_fst, TitleUser_fst, botDisplayName_fst_congr env env2 h]
  · intro h
    rw [StatisticsPage_fst_congr env env2 h]

/-- Witness of C8: two environments with the same global configuration and
store state give the same results, and a re-render repeats the first one. -/
theorem C8_render_deterministic_witness :
    TitleUser (.str "Home")
        (TitleUser (.str "Home") ⟨some (.obj [("botName", .str "MainBot")]), .obj []⟩).2
      = TitleUser (.str "Home") ⟨some (.obj [("botName", .str "MainBot")]), .obj []⟩ ∧
    (TitleUser (.str "Home") ⟨some (.obj [("botName", .str "MainBot")]), .null⟩).1
      = (TitleUser (.str "Home") ⟨some (.obj [("botName", .str "MainBot")]), .obj []⟩).1 ∧
    (StatisticsPage ⟨none, .obj []⟩).1
      = (StatisticsPage ⟨some .null, .obj []⟩).1 :=
  ⟨(C8_render_deterministic (.str "Home")
      ⟨some (.obj [("botName", .str "MainBot")]), .obj []⟩
      ⟨some (.obj [("botName", .str "MainBot")]), .null⟩).1.2.1,
   (C8_render_deterministic (.str "Home")
      ⟨some (.obj [("botName", .str "MainBot")]), .obj []⟩
      ⟨some (.obj [("botName", .str "MainBot")]), .null⟩).2.2.1 rfl,
   (C8_render_deterministic .undefined ⟨some .null, .obj []⟩ ⟨none, .obj []⟩).2.2.2 rfl⟩

end PolicrMini
